import Mathlib

/-!
Shallow embedding of `src/server.py` (an MCP server exposing the Investec
banking API): the credential manager `get_access_token`, the request helper
`make_api_request`, and the tool wrappers the claims mention.  Times are
modelled as absolute seconds (`Int`), JSON values as an inductive `JsonV`,
and each network interaction as an environment field describing the
transport outcome, so every function is a pure state transformer that also
reports how many outbound HTTP requests it issued.
-/

namespace Investec

/-- JSON values, as parsed by `response.json()`.  Numbers are modelled as
integers (the token endpoint's `expires_in` is an integer number of
seconds). -/
inductive JsonV where
  | null : JsonV
  | bool : Bool → JsonV
  | num : Int → JsonV
  | str : String → JsonV
  | arr : List JsonV → JsonV
  | obj : List (String × JsonV) → JsonV

/-- Python truthiness of a JSON value (`if access_token:`). -/
def JsonV.pyTruthy : JsonV → Bool
  | .null => false
  | .bool b => b
  | .num n => n != 0
  | .str s => s != ""
  | .arr l => !l.isEmpty
  | .obj l => !l.isEmpty

/-- Python `str()` of a value, as used by the f-string
`f"Bearer {token}"`.  Tokens are strings in practice; compound values are
given a simple deterministic rendering. -/
def JsonV.pyStr : JsonV → String
  | .null => "None"
  | .bool b => if b then "True" else "False"
  | .num n => toString n
  | .str s => s
  | .arr _ => "[...]"
  | .obj _ => "\x7b...\x7d"

/-- Lookup in an association list, the model of Python dict indexing. -/
def alistLookup {α : Type} : List (String × α) → String → Option α
  | [], _ => none
  | (k, v) :: rest, key => if k = key then some v else alistLookup rest key

/-- Dict lookup `result[key]` on a JSON value; `none` models the lookup
raising (`KeyError`, or `TypeError` on a non-object). -/
def jsonLookup : JsonV → String → Option JsonV
  | .obj kvs, key => alistLookup kvs key
  | _, _ => none

/-- An HTTP response as seen by the client: status code, raw text body, and
the result of `response.json()` (`none` when the body is not valid JSON). -/
structure HttpResp where
  status : Nat
  text : String
  json : Option JsonV

/-- httpx `Response.raise_for_status` raises exactly when the status code is
not a 2xx success code. -/
def isSuccessStatus (status : Nat) : Bool :=
  200 ≤ status && status < 300

/-- Exceptions the embedded code can raise.  `httpStatusError` models
`httpx.HTTPStatusError` from `raise_for_status` (the spec's
`AuthenticationError` on the token path and `ApiRequestError` on the API
path): it carries the upstream status code and response body.
`transportError` models a network-level failure, `keyError` a missing dict
key, `typeError` a bad operand type, `jsonDecodeError` an unparsable body,
and `valueError` the explicit `raise ValueError` for unsupported methods. -/
inductive PyErr where
  | httpStatusError (status : Nat) (body : String)
  | transportError (msg : String)
  | keyError (key : String)
  | typeError (msg : String)
  | jsonDecodeError
  | valueError (msg : String)

/-- The module-level token cache: `access_token` and `token_expiry`
(`None`/`None` initially).  `token_expiry` is an absolute time in
seconds. -/
structure CredState where
  access_token : Option JsonV
  token_expiry : Option Int

/-- Python truthiness of the cached `access_token` variable. -/
def optTruthy : Option JsonV → Bool
  | none => false
  | some v => v.pyTruthy

/-- The guard on the cached-token fast path, line 48 of `server.py`:
`if access_token and token_expiry and token_expiry > current_time`.
A `datetime` is always truthy, so the middle conjunct is `isSome`. -/
def tokenGuard (st : CredState) (current_time : Int) : Bool :=
  optTruthy st.access_token && st.token_expiry.isSome &&
    decide (current_time < st.token_expiry.getD 0)

/-- Environment of one `get_access_token` call: `now1` is the
`datetime.now()` read at line 47, `now2` the one at line 80, and `resp` the
outcome of the token-endpoint POST (`Except.error` is a transport
failure). -/
structure TokenEnv where
  now1 : Int
  now2 : Int
  resp : Except String HttpResp

/-- Result of one `get_access_token` call: the returned token or the raised
exception, the token cache after the call, and the number of outbound HTTP
requests the call issued. -/
structure TokenResult where
  result : Except PyErr JsonV
  state : CredState
  tokenRequests : Nat

/-- The refresh path of `get_access_token` (lines 64-88), applied to the
response of the already-issued POST.  `raise_for_status` comes first, then
`response.json()`, then `access_token = result["access_token"]` and only
after that `token_expiry = datetime.now() + timedelta(seconds=
result["expires_in"] - 60)` — so a body with `access_token` but without
`expires_in` updates `access_token` and then raises, leaving `token_expiry`
untouched.  A boolean `expires_in` participates in arithmetic like a Python
`bool` (an `int` subclass); any other non-numeric value raises
`TypeError` after the token assignment. -/
def processTokenResponse (st : CredState) (now2 : Int)
    (resp : Except String HttpResp) : Except PyErr JsonV × CredState :=
  match resp with
  | .error msg => (.error (.transportError msg), st)
  | .ok r =>
    if isSuccessStatus r.status then
      match r.json with
      | none => (.error .jsonDecodeError, st)
      | some body =>
        match jsonLookup body "access_token" with
        | none => (.error (.keyError "access_token"), st)
        | some tokV =>
          let st1 : CredState := { st with access_token := some tokV }
          match jsonLookup body "expires_in" with
          | none => (.error (.keyError "expires_in"), st1)
          | some (.num n) =>
            (.ok tokV, { st1 with token_expiry := some (now2 + (n - 60)) })
          | some (.bool b) =>
            (.ok tokV,
             { st1 with token_expiry := some (now2 + ((if b then 1 else 0) - 60)) })
          | some _ => (.error (.typeError "unsupported operand type"), st1)
    else (.error (.httpStatusError r.status r.text), st)

/-- `get_access_token` (lines 43-88): return the cached token when the
guard holds; otherwise issue one POST to the token endpoint and process its
response. -/
def get_access_token (env : TokenEnv) (st : CredState) : TokenResult :=
  if tokenGuard st env.now1 then
    { result := .ok (st.access_token.getD JsonV.null), state := st,
      tokenRequests := 0 }
  else
    { result := (processTokenResponse st env.now2 env.resp).1,
      state := (processTokenResponse st env.now2 env.resp).2,
      tokenRequests := 1 }

/-- A record of an HTTP request issued against the API: the method actually
used, the full URL, the headers dict, the query parameters, and the JSON
body. -/
structure HttpRequest where
  method : String
  url : String
  headers : List (String × String)
  params : Option (List (String × String))
  body : Option JsonV

/-- Environment of one `make_api_request` call: the base URL configured at
startup, the environment for the inner `get_access_token` call, and the
transport outcome of the API request itself. -/
structure ApiEnv where
  baseUrl : String
  tokenEnv : TokenEnv
  resp : Except String HttpResp

/-- Result of one `make_api_request` call: the parsed JSON or the raised
exception, the token cache afterwards, the number of outbound token
requests issued, and the API request that was issued, if any. -/
structure ApiResult where
  result : Except PyErr JsonV
  state : CredState
  tokenRequests : Nat
  apiRequest : Option HttpRequest

/-- Python `method.upper()` (ASCII), as used in the method dispatch of
`make_api_request`. -/
def pyUpper (s : String) : String := ⟨s.data.map Char.toUpper⟩

/-- Headers built at line 99: Authorization (the token rendered into the
f-string) and Accept. -/
def baseHeaders (token : JsonV) : List (String × String) :=
  [("Authorization", "Bearer " ++ token.pyStr), ("Accept", "application/json")]

/-- Outcome of `response.raise_for_status(); return response.json()`
(lines 114-115) applied to the API call's transport outcome. -/
def apiResponseResult (resp : Except String HttpResp) : Except PyErr JsonV :=
  match resp with
  | .error msg => .error (.transportError msg)
  | .ok r =>
    if isSuccessStatus r.status then
      match r.json with
      | some body => .ok body
      | none => .error .jsonDecodeError
    else .error (.httpStatusError r.status r.text)

/-- `make_api_request` (lines 91-115): first obtain a token via
`get_access_token` (an exception there propagates, and no API request is
issued); then dispatch on `method.upper()`; for POST a Content-Type header
is added whether or not `json_data` is present; an unsupported method
raises `ValueError` before the API request is issued. -/
def make_api_request (env : ApiEnv) (st : CredState) (method endpoint : String)
    (params : Option (List (String × String))) (json_data : Option JsonV) :
    ApiResult :=
  match get_access_token env.tokenEnv st with
  | ⟨.error e, st', n⟩ =>
    { result := .error e, state := st', tokenRequests := n, apiRequest := none }
  | ⟨.ok token, st', n⟩ =>
    if pyUpper method = "GET" then
      { result := apiResponseResult env.resp, state := st', tokenRequests := n,
        apiRequest := some
          { method := "GET", url := env.baseUrl ++ endpoint,
            headers := baseHeaders token, params := params, body := none } }
    else if pyUpper method = "POST" then
      { result := apiResponseResult env.resp, state := st', tokenRequests := n,
        apiRequest := some
          { method := "POST", url := env.baseUrl ++ endpoint,
            headers := baseHeaders token ++ [("Content-Type", "application/json")],
            params := params, body := json_data } }
    else
      { result := .error (.valueError ("Unsupported method: " ++ method)),
        state := st', tokenRequests := n, apiRequest := none }

/-- The query-parameter dict built by `get_account_transactions`
(lines 156-164): each optional argument is added exactly when it is
Python-truthy, and `includePending` is sent as the string `"true"`. -/
def get_account_transactions_params (fromDate toDate : String)
    (transactionType : Option String) (includePending : Option Bool) :
    List (String × String) :=
  (if fromDate ≠ "" then [("fromDate", fromDate)] else []) ++
  (if toDate ≠ "" then [("toDate", toDate)] else []) ++
  (match transactionType with
   | some s => if s ≠ "" then [("transactionType", s)] else []
   | none => []) ++
  (if includePending = some true then [("includePending", "true")] else [])

/-- The `get_account_transactions` tool (lines 139-169), up to the JSON
serialization of the result. -/
def get_account_transactions (env : ApiEnv) (st : CredState)
    (accountId fromDate toDate : String) (transactionType : Option String)
    (includePending : Option Bool) : ApiResult :=
  make_api_request env st "GET"
    ("/za/pb/v1/accounts/" ++ accountId ++ "/transactions")
    (some (get_account_transactions_params fromDate toDate transactionType
      includePending))
    none

/-- One transfer dict (string keys to string values) as a JSON object. -/
def transferToJson (d : List (String × String)) : JsonV :=
  JsonV.obj (d.map (fun kv => (kv.1, JsonV.str kv.2)))

/-- The request body built by `transfer_multiple` (lines 273-276):
`{"transferList": ...}` with `profileId` added only when it is not
`None`. -/
def transfer_multiple_data (transferList : List (List (String × String)))
    (profileId : Option String) : List (String × JsonV) :=
  [("transferList", JsonV.arr (transferList.map transferToJson))] ++
  (match profileId with
   | some p => [("profileId", JsonV.str p)]
   | none => [])

/-- The `transfer_multiple` tool (lines 252-290), up to the JSON
serialization of the result. -/
def transfer_multiple (env : ApiEnv) (st : CredState) (accountId : String)
    (transferList : List (List (String × String))) (profileId : Option String) :
    ApiResult :=
  make_api_request env st "POST"
    ("/za/pb/v1/accounts/" ++ accountId ++ "/transfermultiple")
    none (some (JsonV.obj (transfer_multiple_data transferList profileId)))

/-! Cooperative-concurrency model of several in-flight `get_access_token`
calls.  Each call runs synchronously from the `datetime.now()` read through
the cache guard, then (on a miss) suspends at the awaited POST; the
response processing and both cache assignments run synchronously on resume
(there is no `await` between lines 78 and 82, and no re-check of the guard
after resuming).  A schedule is the order in which the event loop advances
the tasks. -/

/-- Progress of one in-flight `get_access_token` call. -/
inductive Phase where
  | start
  | awaitingResponse
  | done (result : Except PyErr JsonV)

/-- One in-flight `get_access_token` call: its progress, its environment
(clock reads and the response its own POST will receive), and the number of
outbound token requests it has issued so far. -/
structure TokenTask where
  phase : Phase
  env : TokenEnv
  requests : Nat

/-- The process: the shared module-level token cache and the in-flight
calls. -/
structure Sys where
  shared : CredState
  tasks : List TokenTask

/-- Advance one task by one step against the shared cache.  From `start`:
evaluate the guard; on a hit the call completes with the cached token, on a
miss it issues its POST (counted immediately: the miss decision is final,
the code never re-checks the cache) and suspends.  From
`awaitingResponse`: process the response exactly as the sequential code
does, writing the shared cache. -/
def stepTask (shared : CredState) (t : TokenTask) : CredState × TokenTask :=
  match t.phase with
  | .start =>
    if tokenGuard shared t.env.now1 then
      (shared,
       { t with phase := .done (.ok (shared.access_token.getD JsonV.null)) })
    else
      (shared, { t with phase := .awaitingResponse, requests := t.requests + 1 })
  | .awaitingResponse =>
    let p := processTokenResponse shared t.env.now2 t.env.resp
    (p.2, { t with phase := .done p.1 })
  | .done _ => (shared, t)

/-- Run one scheduler step: advance task `i` (no-op when `i` is out of
range). -/
def stepSys (sys : Sys) (i : Nat) : Sys :=
  match sys.tasks.get? i with
  | none => sys
  | some t =>
    let p := stepTask sys.shared t
    { shared := p.1, tasks := sys.tasks.set i p.2 }

/-- Run a whole schedule. -/
def runSchedule (sys : Sys) : List Nat → Sys
  | [] => sys
  | i :: rest => runSchedule (stepSys sys i) rest

/-- Token-endpoint environment of a task in the two-call race: time 0, and
a 200 response carrying its own token `s` with `expires_in = 300`. -/
def taskEnv (s : String) : TokenEnv :=
  ⟨0, 0, .ok ⟨200, "", some (.obj [("access_token", .str s), ("expires_in", .num 300)])⟩⟩

/-- Two concurrent `get_access_token` calls, both starting with an empty
token cache. -/
def sysC : Sys :=
  ⟨⟨none, none⟩, [⟨.start, taskEnv "t0", 0⟩, ⟨.start, taskEnv "t1", 0⟩]⟩

/-- Per-task accounting invariant: a task has issued at most one request,
and none while it has not yet run its cache check. -/
def taskReqInv (t : TokenTask) : Prop :=
  t.requests ≤ 1 ∧ (t.phase = Phase.start → t.requests = 0)

/-! Theorems.  Helper lemmas first, then one theorem per claim. -/

/-- Stepping a task preserves the request-count invariant. -/
theorem stepTask_taskReqInv (shared : CredState) (t : TokenTask)
    (h : taskReqInv t) : taskReqInv (stepTask shared t).2 := by
  obtain ⟨ph, envt, reqs⟩ := t
  cases ph with
  | start =>
    have h0 : reqs = 0 := h.2 rfl
    subst h0
    by_cases hg : tokenGuard shared envt.now1 <;>
      simp [stepTask, hg, taskReqInv]
  | awaitingResponse =>
    refine ⟨?_, ?_⟩ <;> simp [stepTask, taskReqInv]
    exact h.1
  | done r =>
    exact ⟨h.1, by simp [stepTask]⟩

/-- A scheduler step preserves the request-count invariant on all tasks. -/
theorem stepSys_taskReqInv (sys : Sys) (i : Nat)
    (h : ∀ t ∈ sys.tasks, taskReqInv t) :
    ∀ t ∈ (stepSys sys i).tasks, taskReqInv t := by
  intro t ht
  unfold stepSys at ht
  split at ht
  · exact h t ht
  · next t0 hg =>
    rcases List.mem_or_eq_of_mem_set ht with hmem | heq
    · exact h t hmem
    · subst heq
      exact stepTask_taskReqInv _ _ (h t0 (List.get?_mem hg))

/-- Running a schedule preserves the request-count invariant. -/
theorem runSchedule_taskReqInv (sched : List Nat) (sys : Sys)
    (h : ∀ t ∈ sys.tasks, taskReqInv t) :
    ∀ t ∈ (runSchedule sys sched).tasks, taskReqInv t := by
  induction sched generalizing sys with
  | nil => exact h
  | cons i rest ih => exact ih _ (stepSys_taskReqInv _ _ h)

/-- Running a schedule does not change the number of tasks. -/
theorem runSchedule_length (sched : List Nat) (sys : Sys) :
    (runSchedule sys sched).tasks.length = sys.tasks.length := by
  induction sched generalizing sys with
  | nil => rfl
  | cons i rest ih =>
    have h1 := ih (stepSys sys i)
    have h2 : (stepSys sys i).tasks.length = sys.tasks.length := by
      unfold stepSys
      split
      · rfl
      · simp
    exact h1.trans h2

/-- C1: while a (truthy) cached token exists and the current time is
strictly before the cached expiry, `get_access_token` returns the cached
token, leaves the cache unchanged and issues no network request; and once
the current time has reached or passed the expiry, the call issues a
refresh request and its result is the refresh outcome, never the cached
read. -/
theorem get_access_token_cache_semantics (env : TokenEnv) (st : CredState)
    (tok : JsonV) (e : Int)
    (htok : st.access_token = some tok) (htr : tok.pyTruthy = true)
    (he : st.token_expiry = some e) :
    (env.now1 < e → get_access_token env st = ⟨.ok tok, st, 0⟩) ∧
    (e ≤ env.now1 →
      (get_access_token env st).tokenRequests = 1 ∧
      (get_access_token env st).result =
        (processTokenResponse st env.now2 env.resp).1) := by
  constructor
  · intro hlt
    have hg : tokenGuard st env.now1 = true := by
      simp [tokenGuard, optTruthy, htok, htr, he, hlt]
    simp [get_access_token, hg, htok]
  · intro hge
    have hg : tokenGuard st env.now1 = false := by
      simp [tokenGuard, optTruthy, htok, htr, he]
      omega
    simp [get_access_token, hg]

/-- C1 witness: concrete cached token `"tok"` with expiry 100 observed at
time 50. -/
theorem get_access_token_cache_semantics_witness :
    ((50 : Int) < 100 →
      get_access_token ⟨50, 50, .error "x"⟩ ⟨some (.str "tok"), some 100⟩ =
        ⟨.ok (.str "tok"), ⟨some (.str "tok"), some 100⟩, 0⟩) ∧
    ((100 : Int) ≤ 50 →
      (get_access_token ⟨50, 50, .error "x"⟩
          ⟨some (.str "tok"), some 100⟩).tokenRequests = 1 ∧
      (get_access_token ⟨50, 50, .error "x"⟩
          ⟨some (.str "tok"), some 100⟩).result =
        (processTokenResponse ⟨some (.str "tok"), some 100⟩ 50 (.error "x")).1) :=
  get_access_token_cache_semantics ⟨50, 50, .error "x"⟩
    ⟨some (.str "tok"), some 100⟩ (.str "tok") 100 rfl rfl rfl

/-- C5: on a successful refresh reporting `expires_in = n`, the cached
expiry becomes `now + n - 60` and the reported token is cached and
returned. -/
theorem token_expiry_margin (env : TokenEnv) (st : CredState)
    (hmiss : tokenGuard st env.now1 = false)
    (r : HttpResp) (hr : env.resp = .ok r)
    (hs : isSuccessStatus r.status = true)
    (body : JsonV) (hb : r.json = some body)
    (tok : JsonV) (ht : jsonLookup body "access_token" = some tok)
    (n : Int) (he : jsonLookup body "expires_in" = some (.num n)) :
    get_access_token env st =
      ⟨.ok tok, ⟨some tok, some (env.now2 + (n - 60))⟩, 1⟩ := by
  simp [get_access_token, hmiss, processTokenResponse, hr, hs, hb, ht, he]

/-- C5 witness: `expires_in = 300` at time 500 yields expiry 740
(`now + 240`), not 800. -/
theorem token_expiry_margin_witness :
    get_access_token
        ⟨500, 500,
         .ok ⟨200, "",
              some (.obj [("access_token", .str "t"), ("expires_in", .num 300)])⟩⟩
        ⟨none, none⟩ =
      ⟨.ok (.str "t"), ⟨some (.str "t"), some 740⟩, 1⟩ :=
  token_expiry_margin
    ⟨500, 500,
     .ok ⟨200, "",
          some (.obj [("access_token", .str "t"), ("expires_in", .num 300)])⟩⟩
    ⟨none, none⟩ rfl _ rfl rfl _ rfl _ rfl 300 rfl

/-- C3 counterexample: the token endpoint answers 201 (a non-200 status)
with a well-formed body, and the call succeeds and caches the token — it
does not fail, because `raise_for_status` only raises on non-2xx. -/
theorem token_refresh_201_success_mutates_cache :
    get_access_token
        ⟨0, 0,
         .ok ⟨201, "",
              some (.obj [("access_token", .str "t"), ("expires_in", .num 300)])⟩⟩
        ⟨none, none⟩ =
      ⟨.ok (.str "t"), ⟨some (.str "t"), some 240⟩, 1⟩ := rfl

/-- C3 amended: on a non-2xx token response or a transport failure, the
call fails with an error carrying the upstream status and body, and the
previously cached token and expiry are left completely unchanged. -/
theorem token_refresh_failure_preserves_cache (env : TokenEnv)
    (st : CredState) (hmiss : tokenGuard st env.now1 = false) :
    (∀ msg, env.resp = .error msg →
      get_access_token env st = ⟨.error (.transportError msg), st, 1⟩) ∧
    (∀ r, env.resp = .ok r → isSuccessStatus r.status = false →
      get_access_token env st =
        ⟨.error (.httpStatusError r.status r.text), st, 1⟩) := by
  constructor
  · intro msg hm
    simp [get_access_token, hmiss, processTokenResponse, hm]
  · intro r hr hs
    simp [get_access_token, hmiss, processTokenResponse, hr, hs]

/-- C3 witness: an HTTP 401 with body `"denied"`, hit while an expired
token `"old"` is cached, fails with the status and body and leaves the
cached pair untouched. -/
theorem token_refresh_failure_preserves_cache_witness :
    get_access_token ⟨0, 0, .ok ⟨401, "denied", none⟩⟩
        ⟨some (.str "old"), some (-5)⟩ =
      ⟨.error (.httpStatusError 401 "denied"), ⟨some (.str "old"), some (-5)⟩, 1⟩ :=
  (token_refresh_failure_preserves_cache ⟨0, 0, .ok ⟨401, "denied", none⟩⟩
    ⟨some (.str "old"), some (-5)⟩ (by rfl)).2 _ rfl rfl

/-- C4: a 200 token response whose body has `access_token` but no
`expires_in` makes `get_access_token` raise `KeyError` *after* the token
assignment: the cache ends with the new token `"new"` paired with the stale
expiry 100 of the old token — the both-set-and-consistent invariant is
broken and the two fields are not replaced atomically. -/
theorem token_missing_expires_in_breaks_invariant :
    get_access_token
        ⟨200, 200, .ok ⟨200, "", some (.obj [("access_token", .str "new")])⟩⟩
        ⟨some (.str "old"), some 100⟩ =
      ⟨.error (.keyError "expires_in"), ⟨some (.str "new"), some 100⟩, 1⟩ := rfl

/-- C2 counterexample: two concurrent `get_access_token` calls, both
starting with no cached token, interleaved as check/check/resume/resume:
two outbound token requests are issued (not one), and the two calls return
different tokens (`"t0"` and `"t1"`). -/
theorem concurrent_refresh_two_requests :
    ((runSchedule sysC [0, 1, 0, 1]).tasks.map TokenTask.requests).sum = 2 ∧
    (runSchedule sysC [0, 1, 0, 1]).tasks.map TokenTask.phase =
      [.done (.ok (.str "t0")), .done (.ok (.str "t1"))] ∧
    JsonV.str "t0" ≠ JsonV.str "t1" :=
  ⟨rfl, rfl, fun h => by injection h with h2; exact absurd h2 (by decide)⟩

/-- C2 amended: the refresh path is not serialized, so N concurrent calls
that all start with no valid cached token may each issue their own token
request; each call issues at most one, so any schedule over N such calls
issues at most N outbound token requests in total. -/
theorem concurrent_refresh_request_bound (sys : Sys) (sched : List Nat)
    (h : ∀ t ∈ sys.tasks, t.phase = Phase.start ∧ t.requests = 0) :
    ((runSchedule sys sched).tasks.map TokenTask.requests).sum ≤
      sys.tasks.length := by
  have hinv : ∀ t ∈ (runSchedule sys sched).tasks, taskReqInv t :=
    runSchedule_taskReqInv sched sys
      (fun t ht => ⟨by simp [(h t ht).2], fun _ => (h t ht).2⟩)
  have hb : ∀ x ∈ (runSchedule sys sched).tasks.map TokenTask.requests, x ≤ 1 := by
    intro x hx
    rcases List.mem_map.mp hx with ⟨t, ht, rfl⟩
    exact (hinv t ht).1
  have hs := List.sum_le_card_nsmul _ 1 hb
  simpa [runSchedule_length sched sys] using hs

/-- C2 witness: the two-call race issues at most 2 requests under the
interleaved schedule (and, per the counterexample, exactly 2). -/
theorem concurrent_refresh_request_bound_witness :
    ((runSchedule sysC [0, 1, 0, 1]).tasks.map TokenTask.requests).sum ≤ 2 :=
  concurrent_refresh_request_bound sysC [0, 1, 0, 1] (by
    intro t ht
    rcases List.mem_cons.mp ht with rfl | ht
    · exact ⟨rfl, rfl⟩
    rcases List.mem_cons.mp ht with rfl | ht
    · exact ⟨rfl, rfl⟩
    · exact absurd ht (List.not_mem_nil t))

/-- When the token fetch raises, `make_api_request` propagates the
exception and issues no API request. -/
theorem make_api_request_token_error (env : ApiEnv) (st : CredState)
    (method endpoint : String) (params : Option (List (String × String)))
    (json_data : Option JsonV) (e : PyErr)
    (htok : (get_access_token env.tokenEnv st).result = .error e) :
    make_api_request env st method endpoint params json_data =
      ⟨.error e, (get_access_token env.tokenEnv st).state,
       (get_access_token env.tokenEnv st).tokenRequests, none⟩ := by
  rcases hG : get_access_token env.tokenEnv st with ⟨res, st2, n⟩
  have hres : res = .error e := by rw [hG] at htok; exact htok
  subst hres
  simp [make_api_request, hG]

/-- With a token in hand and a method whose uppercasing is GET,
`make_api_request` issues exactly the GET request of lines 104-105. -/
theorem make_api_request_eq_get (env : ApiEnv) (st : CredState)
    (method endpoint : String) (params : Option (List (String × String)))
    (json_data : Option JsonV) (tok : JsonV)
    (htok : (get_access_token env.tokenEnv st).result = .ok tok)
    (hm : pyUpper method = "GET") :
    make_api_request env st method endpoint params json_data =
      ⟨apiResponseResult env.resp, (get_access_token env.tokenEnv st).state,
       (get_access_token env.tokenEnv st).tokenRequests,
       some ⟨"GET", env.baseUrl ++ endpoint, baseHeaders tok, params, none⟩⟩ := by
  rcases hG : get_access_token env.tokenEnv st with ⟨res, st2, n⟩
  have hres : res = .ok tok := by rw [hG] at htok; exact htok
  subst hres
  simp [make_api_request, hG, hm]

/-- With a token in hand and a method whose uppercasing is POST,
`make_api_request` issues exactly the POST request of lines 106-110,
Content-Type header included whether or not a body is present. -/
theorem make_api_request_eq_post (env : ApiEnv) (st : CredState)
    (method endpoint : String) (params : Option (List (String × String)))
    (json_data : Option JsonV) (tok : JsonV)
    (htok : (get_access_token env.tokenEnv st).result = .ok tok)
    (hm : pyUpper method = "POST") :
    make_api_request env st method endpoint params json_data =
      ⟨apiResponseResult env.resp, (get_access_token env.tokenEnv st).state,
       (get_access_token env.tokenEnv st).tokenRequests,
       some ⟨"POST", env.baseUrl ++ endpoint,
             baseHeaders tok ++ [("Content-Type", "application/json")],
             params, json_data⟩⟩ := by
  rcases hG : get_access_token env.tokenEnv st with ⟨res, st2, n⟩
  have hres : res = .ok tok := by rw [hG] at htok; exact htok
  subst hres
  simp [make_api_request, hG, hm]

/-- C6: once the API request is issued (token in hand, supported method,
transport delivered a response), a non-2xx status makes the call fail with
the error carrying that status and the response body, and a 2xx status
makes it return the parsed JSON body. -/
theorem make_api_request_status_handling (env : ApiEnv) (st : CredState)
    (method endpoint : String) (params : Option (List (String × String)))
    (json_data : Option JsonV)
    (hm : pyUpper method = "GET" ∨ pyUpper method = "POST")
    (tok : JsonV) (htok : (get_access_token env.tokenEnv st).result = .ok tok)
    (r : HttpResp) (hr : env.resp = .ok r) :
    (isSuccessStatus r.status = false →
      (make_api_request env st method endpoint params json_data).result =
        .error (.httpStatusError r.status r.text)) ∧
    (∀ body, isSuccessStatus r.status = true → r.json = some body →
      (make_api_request env st method endpoint params json_data).result =
        .ok body) := by
  have hres : (make_api_request env st method endpoint params json_data).result =
      apiResponseResult env.resp := by
    rcases hm with hm | hm
    · rw [make_api_request_eq_get env st method endpoint params json_data tok htok hm]
    · rw [make_api_request_eq_post env st method endpoint params json_data tok htok hm]
  rw [hres, hr]
  constructor
  · intro hs
    simp [apiResponseResult, hs]
  · intro body hs hb
    simp [apiResponseResult, hs, hb]

/-- C6 witness: a GET on the balance endpoint answered 404 with body
`{"message":"not found"}` fails with the error carrying status 404 and that
body. -/
theorem make_api_request_status_handling_witness :
    (make_api_request
        ⟨"https://openapi.investec.com",
         ⟨0, 0,
          .ok ⟨200, "",
               some (.obj [("access_token", .str "t"), ("expires_in", .num 300)])⟩⟩,
         .ok ⟨404, "\x7b\"message\":\"not found\"\x7d",
              some (.obj [("message", .str "not found")])⟩⟩
        ⟨none, none⟩ "GET" "/za/pb/v1/accounts/a1/balance" none none).result =
      .error (.httpStatusError 404 "\x7b\"message\":\"not found\"\x7d") :=
  (make_api_request_status_handling
    ⟨"https://openapi.investec.com",
     ⟨0, 0,
      .ok ⟨200, "",
           some (.obj [("access_token", .str "t"), ("expires_in", .num 300)])⟩⟩,
     .ok ⟨404, "\x7b\"message\":\"not found\"\x7d",
          some (.obj [("message", .str "not found")])⟩⟩
    ⟨none, none⟩ "GET" "/za/pb/v1/accounts/a1/balance" none none
    (Or.inl rfl) (.str "t") rfl _ rfl).1 rfl

/-- C8 counterexample: a DELETE with an empty token cache: the call does
fail with the unsupported-method error and issues no API request, but one
outbound HTTP request (the token fetch) has already been issued before the
failure — not zero. -/
theorem unsupported_method_after_token_request :
    (make_api_request
        ⟨"https://openapi.investec.com",
         ⟨0, 0,
          .ok ⟨200, "",
               some (.obj [("access_token", .str "t"), ("expires_in", .num 300)])⟩⟩,
         .ok ⟨200, "", some (.obj [])⟩⟩
        ⟨none, none⟩ "DELETE" "/za/pb/v1/accounts" none none).result =
        .error (.valueError "Unsupported method: DELETE") ∧
    (make_api_request
        ⟨"https://openapi.investec.com",
         ⟨0, 0,
          .ok ⟨200, "",
               some (.obj [("access_token", .str "t"), ("expires_in", .num 300)])⟩⟩,
         .ok ⟨200, "", some (.obj [])⟩⟩
        ⟨none, none⟩ "DELETE" "/za/pb/v1/accounts" none none).tokenRequests = 1 ∧
    (make_api_request
        ⟨"https://openapi.investec.com",
         ⟨0, 0,
          .ok ⟨200, "",
               some (.obj [("access_token", .str "t"), ("expires_in", .num 300)])⟩⟩,
         .ok ⟨200, "", some (.obj [])⟩⟩
        ⟨none, none⟩ "DELETE" "/za/pb/v1/accounts" none none).apiRequest = none :=
  ⟨rfl, rfl, rfl⟩

/-- C8 amended: a method outside GET/POST (after uppercasing) never causes
an API request to be issued, and — when the token fetch succeeds — the call
fails with the unsupported-method `ValueError`; the token fetch, with its
own HTTP request, runs before this check. -/
theorem unsupported_method_no_api_request (env : ApiEnv) (st : CredState)
    (method endpoint : String) (params : Option (List (String × String)))
    (json_data : Option JsonV)
    (h1 : pyUpper method ≠ "GET") (h2 : pyUpper method ≠ "POST") :
    (make_api_request env st method endpoint params json_data).apiRequest =
      none ∧
    (∀ tok, (get_access_token env.tokenEnv st).result = .ok tok →
      (make_api_request env st method endpoint params json_data).result =
        .error (.valueError ("Unsupported method: " ++ method))) := by
  rcases hG : get_access_token env.tokenEnv st with ⟨res, st2, n⟩
  cases res with
  | error e =>
    constructor
    · simp [make_api_request, hG]
    · intro tok htok
      exact absurd htok (by simp)
  | ok tok =>
    constructor
    · simp [make_api_request, hG, h1, h2]
    · intro tok2 htok2
      simp [make_api_request, hG, h1, h2]

/-- C8 witness: a PATCH with a warm token fetch fails with the
unsupported-method error and no API request. -/
theorem unsupported_method_no_api_request_witness :
    (make_api_request
        ⟨"https://openapi.investec.com",
         ⟨0, 0,
          .ok ⟨200, "",
               some (.obj [("access_token", .str "t"), ("expires_in", .num 300)])⟩⟩,
         .ok ⟨200, "", some (.obj [])⟩⟩
        ⟨none, none⟩ "PATCH" "/x" none none).apiRequest = none ∧
    (make_api_request
        ⟨"https://openapi.investec.com",
         ⟨0, 0,
          .ok ⟨200, "",
               some (.obj [("access_token", .str "t"), ("expires_in", .num 300)])⟩⟩,
         .ok ⟨200, "", some (.obj [])⟩⟩
        ⟨none, none⟩ "PATCH" "/x" none none).result =
      .error (.valueError "Unsupported method: PATCH") := by
  have h := unsupported_method_no_api_request
    ⟨"https://openapi.investec.com",
     ⟨0, 0,
      .ok ⟨200, "",
           some (.obj [("access_token", .str "t"), ("expires_in", .num 300)])⟩⟩,
     .ok ⟨200, "", some (.obj [])⟩⟩
    ⟨none, none⟩ "PATCH" "/x" none none (by decide) (by decide)
  exact ⟨h.1, h.2 (.str "t") rfl⟩

/-- C9 counterexample: a POST with `json_data = None` (no body) still
carries the `Content-Type: application/json` header — the header is added
for every POST, not exactly for POST with a body. -/
theorem post_without_body_has_content_type :
    (make_api_request
        ⟨"https://openapi.investec.com",
         ⟨0, 0,
          .ok ⟨200, "",
               some (.obj [("access_token", .str "t"), ("expires_in", .num 300)])⟩⟩,
         .ok ⟨200, "", some (.obj [])⟩⟩
        ⟨none, none⟩ "POST" "/x" none none).apiRequest =
      some ⟨"POST", "https://openapi.investec.com/x",
            [("Authorization", "Bearer t"), ("Accept", "application/json"),
             ("Content-Type", "application/json")], none, none⟩ := rfl

/-- C9 amended: every call with a supported method first obtains a token
and sends the request to `baseUrl ++ path` with `Authorization: Bearer
<token>` and `Accept: application/json` headers, adding `Content-Type:
application/json` exactly when the method is POST (with or without a
body). -/
theorem make_api_request_headers (env : ApiEnv) (st : CredState)
    (method endpoint : String) (params : Option (List (String × String)))
    (json_data : Option JsonV) (tok : JsonV)
    (htok : (get_access_token env.tokenEnv st).result = .ok tok) :
    (pyUpper method = "GET" →
      (make_api_request env st method endpoint params json_data).apiRequest =
        some ⟨"GET", env.baseUrl ++ endpoint,
              [("Authorization", "Bearer " ++ tok.pyStr),
               ("Accept", "application/json")], params, none⟩) ∧
    (pyUpper method = "POST" →
      (make_api_request env st method endpoint params json_data).apiRequest =
        some ⟨"POST", env.baseUrl ++ endpoint,
              [("Authorization", "Bearer " ++ tok.pyStr),
               ("Accept", "application/json"),
               ("Content-Type", "application/json")], params, json_data⟩) := by
  constructor
  · intro hm
    rw [make_api_request_eq_get env st method endpoint params json_data tok htok hm]
    rfl
  · intro hm
    rw [make_api_request_eq_post env st method endpoint params json_data tok htok hm]
    rfl

/-- C9 witness: a lowercase `"get"` call issues the GET with bearer and
accept headers and no Content-Type. -/
theorem make_api_request_headers_witness :
    (make_api_request
        ⟨"https://openapi.investec.com",
         ⟨0, 0,
          .ok ⟨200, "",
               some (.obj [("access_token", .str "t"), ("expires_in", .num 300)])⟩⟩,
         .ok ⟨200, "", some (.obj [])⟩⟩
        ⟨none, none⟩ "get" "/y" none none).apiRequest =
      some ⟨"GET", "https://openapi.investec.com/y",
            [("Authorization", "Bearer t"), ("Accept", "application/json")],
            none, none⟩ :=
  (make_api_request_headers
    ⟨"https://openapi.investec.com",
     ⟨0, 0,
      .ok ⟨200, "",
           some (.obj [("access_token", .str "t"), ("expires_in", .num 300)])⟩⟩,
     .ok ⟨200, "", some (.obj [])⟩⟩
    ⟨none, none⟩ "get" "/y" none none (.str "t") rfl).1 rfl

/-- C7: whenever `transfer_multiple` issues a request, it is a POST to
`{baseUrl}/za/pb/v1/accounts/{accountId}/transfermultiple` whose JSON body
maps `"transferList"` to the given list, and maps `"profileId"` to the
supplied profile exactly when one was supplied (no `"profileId"` key when
it was omitted). -/
theorem transfer_multiple_request_shape (env : ApiEnv) (st : CredState)
    (accountId : String) (transferList : List (List (String × String)))
    (profileId : Option String) (req : HttpRequest)
    (h : (transfer_multiple env st accountId transferList profileId).apiRequest =
      some req) :
    req.method = "POST" ∧
    req.url = env.baseUrl ++ ("/za/pb/v1/accounts/" ++ accountId ++ "/transfermultiple") ∧
    (∃ kvs, req.body = some (JsonV.obj kvs) ∧
      alistLookup kvs "transferList" =
        some (JsonV.arr (transferList.map transferToJson)) ∧
      alistLookup kvs "profileId" = profileId.map JsonV.str) := by
  rcases hT : (get_access_token env.tokenEnv st).result with e | tok
  · rw [transfer_multiple,
        make_api_request_token_error env st "POST"
          ("/za/pb/v1/accounts/" ++ accountId ++ "/transfermultiple") none
          (some (JsonV.obj (transfer_multiple_data transferList profileId)))
          e hT] at h
    exact absurd h (by simp)
  · rw [transfer_multiple,
        make_api_request_eq_post env st "POST"
          ("/za/pb/v1/accounts/" ++ accountId ++ "/transfermultiple") none
          (some (JsonV.obj (transfer_multiple_data transferList profileId)))
          tok hT rfl] at h
    have h2 : (⟨"POST",
        env.baseUrl ++ ("/za/pb/v1/accounts/" ++ accountId ++ "/transfermultiple"),
        baseHeaders tok ++ [("Content-Type", "application/json")], none,
        some (JsonV.obj (transfer_multiple_data transferList profileId))⟩ :
        HttpRequest) = req := Option.some.inj h
    subst h2
    refine ⟨rfl, rfl, transfer_multiple_data transferList profileId, rfl, ?_, ?_⟩
    · cases profileId <;> simp [transfer_multiple_data, alistLookup]
    · cases profileId <;> simp [transfer_multiple_data, alistLookup]

/-- C7 witness: the spec's end-to-end transfer example, with
`profileId = "p1"` supplied. -/
theorem transfer_multiple_request_shape_witness :
    ("POST" : String) = "POST" ∧
    ("B/za/pb/v1/accounts/acc1/transfermultiple" : String) =
      "B" ++ ("/za/pb/v1/accounts/" ++ "acc1" ++ "/transfermultiple") ∧
    (∃ kvs,
      (some (JsonV.obj
        [("transferList", JsonV.arr
           [JsonV.obj [("beneficiaryAccountId", JsonV.str "b1"),
                       ("amount", JsonV.str "100.00"),
                       ("myReference", JsonV.str "r1"),
                       ("theirReference", JsonV.str "r2")]]),
         ("profileId", JsonV.str "p1")]) : Option JsonV) =
        some (JsonV.obj kvs) ∧
      alistLookup kvs "transferList" =
        some (JsonV.arr
           [JsonV.obj [("beneficiaryAccountId", JsonV.str "b1"),
                       ("amount", JsonV.str "100.00"),
                       ("myReference", JsonV.str "r1"),
                       ("theirReference", JsonV.str "r2")]]) ∧
      alistLookup kvs "profileId" = Option.map JsonV.str (some "p1")) :=
  transfer_multiple_request_shape
    ⟨"B",
     ⟨0, 0,
      .ok ⟨200, "",
           some (.obj [("access_token", .str "t"), ("expires_in", .num 300)])⟩⟩,
     .ok ⟨200, "", some (.obj [])⟩⟩
    ⟨none, none⟩ "acc1"
    [[("beneficiaryAccountId", "b1"), ("amount", "100.00"),
      ("myReference", "r1"), ("theirReference", "r2")]]
    (some "p1")
    ⟨"POST", "B/za/pb/v1/accounts/acc1/transfermultiple",
     [("Authorization", "Bearer t"), ("Accept", "application/json"),
      ("Content-Type", "application/json")], none,
     some (JsonV.obj
        [("transferList", JsonV.arr
           [JsonV.obj [("beneficiaryAccountId", JsonV.str "b1"),
                       ("amount", JsonV.str "100.00"),
                       ("myReference", JsonV.str "r1"),
                       ("theirReference", JsonV.str "r2")]]),
         ("profileId", JsonV.str "p1")])⟩
    rfl

/-- C10: the transactions tool sends exactly the query parameters that are
truthy: `fromDate`/`toDate`/`transactionType` are present iff non-empty,
and `includePending` is sent as the string `"true"` iff it is `True`
(omitted when `False` or `None`, never sent as `"false"`). -/
theorem get_account_transactions_query_params (env : ApiEnv) (st : CredState)
    (accountId fromDate toDate : String) (transactionType : Option String)
    (includePending : Option Bool) (tok : JsonV)
    (htok : (get_access_token env.tokenEnv st).result = .ok tok) :
    (get_account_transactions env st accountId fromDate toDate
        transactionType includePending).apiRequest =
      some ⟨"GET", env.baseUrl ++ ("/za/pb/v1/accounts/" ++ accountId ++ "/transactions"),
            [("Authorization", "Bearer " ++ tok.pyStr),
             ("Accept", "application/json")],
            some (get_account_transactions_params fromDate toDate
              transactionType includePending), none⟩ ∧
    alistLookup (get_account_transactions_params fromDate toDate
        transactionType includePending) "fromDate" =
      (if fromDate ≠ "" then some fromDate else none) ∧
    alistLookup (get_account_transactions_params fromDate toDate
        transactionType includePending) "toDate" =
      (if toDate ≠ "" then some toDate else none) ∧
    alistLookup (get_account_transactions_params fromDate toDate
        transactionType includePending) "transactionType" =
      (transactionType.bind fun s => if s ≠ "" then some s else none) ∧
    alistLookup (get_account_transactions_params fromDate toDate
        transactionType includePending) "includePending" =
      (if includePending = some true then some "true" else none) := by
  refine ⟨?_, ?_, ?_, ?_, ?_⟩
  · rw [get_account_transactions,
        make_api_request_eq_get env st "GET"
          ("/za/pb/v1/accounts/" ++ accountId ++ "/transactions")
          (some (get_account_transactions_params fromDate toDate
            transactionType includePending)) none tok htok rfl]
    rfl
  all_goals
    rcases transactionType with _ | s
    case' some =>
      by_cases h3 : s = "" <;> revert h3
    all_goals
      by_cases h1 : fromDate = "" <;> by_cases h2 : toDate = "" <;>
      rcases includePending with _ | b <;> try cases b
    all_goals
      try intro h3
    all_goals
      simp_all [get_account_transactions_params, alistLookup]

/-- C10 witness: only `fromDate` is truthy; `toDate`, `transactionType` and
`includePending = False` are all omitted from the query. -/
theorem get_account_transactions_query_params_witness :
    (get_account_transactions
        ⟨"https://openapi.investec.com",
         ⟨0, 0,
          .ok ⟨200, "",
               some (.obj [("access_token", .str "t"), ("expires_in", .num 300)])⟩⟩,
         .ok ⟨200, "", some (.obj [])⟩⟩
        ⟨none, none⟩ "a1" "2024-01-01" "" none (some false)).apiRequest =
      some ⟨"GET", "https://openapi.investec.com/za/pb/v1/accounts/a1/transactions",
            [("Authorization", "Bearer t"), ("Accept", "application/json")],
            some (get_account_transactions_params "2024-01-01" "" none (some false)),
            none⟩ ∧
    alistLookup (get_account_transactions_params "2024-01-01" "" none (some false))
      "fromDate" = some "2024-01-01" ∧
    alistLookup (get_account_transactions_params "2024-01-01" "" none (some false))
      "toDate" = none ∧
    alistLookup (get_account_transactions_params "2024-01-01" "" none (some false))
      "transactionType" = none ∧
    alistLookup (get_account_transactions_params "2024-01-01" "" none (some false))
      "includePending" = none :=
  get_account_transactions_query_params
    ⟨"https://openapi.investec.com",
     ⟨0, 0,
      .ok ⟨200, "",
           some (.obj [("access_token", .str "t"), ("expires_in", .num 300)])⟩⟩,
     .ok ⟨200, "", some (.obj [])⟩⟩
    ⟨none, none⟩ "a1" "2024-01-01" "" none (some false) (.str "t") rfl

end Investec
